import Mathlib

/-!
Verification of the kernelflinger boot-policy, device-state and
boot-parameter code against its natural-language specification.

The definitions below are a shallow embedding of the C sources:
  - src/kernelflinger.c                  (boot-target decision engine)
  - src/libkernelflinger/vars.c          (EFI-variable device state store)
  - src/libkernelflinger/tpm2_security.c (TPM 2.0 device state store)
  - src/libkernelflinger/android.c       (E820 map, BCB access)

Machine integers are modelled as Nat with explicit wrap (% 256 for UINT8
counters) where the code can overflow.  Fallible firmware services are
modelled by explicit result types.
-/

namespace Kernelflinger

/-- EFI status codes reached by the modelled code paths.  `success` is
EFI_SUCCESS, everything else is an EFI error code (high bit set in C). -/
inductive EfiStatus
  | success
  | invalidParameter
  | notFound
  | accessDenied
  | deviceError
  | compromisedData
  | securityViolation
  deriving DecidableEq, Repr

/-- EFI_ERROR(ret): true for every status except EFI_SUCCESS. -/
def EfiStatus.isErr (s : EfiStatus) : Bool := s ≠ EfiStatus.success

/-- enum boot_target from src/kernelflinger.h. -/
inductive BootTarget
  | normalBoot
  | recovery
  | fastboot
  | espBootimage
  | espEfiBinary
  | memory
  | charger
  | powerOff
  | dnx
  | crashmode
  | unknownTarget
  | exitShell
  deriving DecidableEq, Repr

/-- enum wake_sources (rsci header): the wake sources the policy code
inspects. -/
inductive WakeSource
  | notApplicable
  | batteryInserted
  | usbChargerInserted
  | acdcChargerInserted
  | powerButtonPressed
  | other
  deriving DecidableEq, Repr

/-! ## Device state store: rollback indices (claim C1)

`tpm2_bootloader_t` (src/libkernelflinger/tpm2_security.c:138-143) is the
512-byte struct stored at NV index 0x01500082: struct_ver (u8), lock_state
(u8), reserved[6], rollback_index[8] (u64 each).  `tpm2_read_nvindex` /
`tpm2_write_nvindex` access it at field offsets; we model the NV content
directly as the struct, with the NV transport assumed available (transport
failures are orthogonal to the monotonicity question). -/

structure Tpm2Bootloader where
  structVer : Nat
  lockState : Nat
  rollback : List Nat
  deriving DecidableEq, Repr

/-- write_rollback_index_tpm2 (tpm2_security.c:779-798): refuses only
out-of-range slots (>= 8, ARRAY_SIZE of rollback_index) with
EFI_INVALID_PARAMETER; otherwise writes the value unconditionally. -/
def write_rollback_index_tpm2 (slot v : Nat) (st : Tpm2Bootloader) :
    EfiStatus × Tpm2Bootloader :=
  if slot ≥ 8 then (EfiStatus.invalidParameter, st)
  else (EfiStatus.success, { st with rollback := st.rollback.set slot v })

/-- read_rollback_index_tpm2 (tpm2_security.c:753-777). -/
def read_rollback_index_tpm2 (slot : Nat) (st : Tpm2Bootloader) :
    EfiStatus × Nat :=
  if slot ≥ 8 then (EfiStatus.invalidParameter, 0)
  else (EfiStatus.success, st.rollback.getD slot 0)

/-- The authenticated-NV backing keeps rollback indices in per-slot EFI
variables RollbackIndex_%04x (vars.c:59); the store maps a slot number to
the variable's content. -/
def EfiRollbackStore := Nat → Option Nat

/-- write_efi_rollback_index (vars.c:1005-1019): a plain set_efi_variable
of the 8-byte value, no refusal of any value. -/
def write_efi_rollback_index (slot v : Nat) (store : EfiRollbackStore) :
    EfiStatus × EfiRollbackStore :=
  (EfiStatus.success, fun s => if s = slot then some v else store s)

/-- read_efi_rollback_index (vars.c:974-1003). -/
def read_efi_rollback_index (slot : Nat) (store : EfiRollbackStore) :
    EfiStatus × Nat :=
  match store slot with
  | none => (EfiStatus.notFound, 0)
  | some v => (EfiStatus.success, v)

/-! ## Trusty seed NV index (claims C2, C10)

tpm2_read_trusty_seed (tpm2_security.c:548-579) reads the 32-byte seed at
NV index 0x01500080 through Tpm2NvRead and then always calls
Tpm2NvReadLock on the index.  The Tpm2NvRead / Tpm2NvReadLock command
layer lives in the repository's TPM library, outside src/, so its
semantics are modelled from the spec. -/

/-- State of the trusty-seed NV index 0x01500080: whether the index has
been defined (fused), whether it is read-locked for the current boot
cycle, and its 32-byte content. -/
structure TrustySeedNv where
  defined : Bool
  readLocked : Bool
  seed : List Nat
  deriving DecidableEq, Repr

/-- Modelled from the spec: Tpm2NvRead (TPM library, not under src/).
Per the spec's Tpm trait and §4.3, reading an undefined index fails, and
reading an index that was read-locked this boot cycle is refused
(AccessDenied); otherwise the content is returned. -/
def tpm2NvRead (nv : TrustySeedNv) : EfiStatus × List Nat :=
  if ¬nv.defined then (EfiStatus.notFound, [])
  else if nv.readLocked then (EfiStatus.accessDenied, [])
  else (EfiStatus.success, nv.seed)

/-- Modelled from the spec: Tpm2NvReadLock (TPM library, not under src/).
Read-locking a defined index succeeds and makes further reads fail until
the next TPM reset; locking an undefined index fails. -/
def tpm2NvReadLock (nv : TrustySeedNv) : EfiStatus × TrustySeedNv :=
  if ¬nv.defined then (EfiStatus.notFound, nv)
  else (EfiStatus.success, { nv with readLocked := true })

/-- tpm2_read_trusty_seed (tpm2_security.c:548-579).  `buf` is the
caller's 32-byte seed buffer; the result is (status, new NV state, buffer
content on return).  The read is attempted first, the read lock is set
"anyway", and every error path zeroises the buffer (memset_s at line 576)
before returning.  The code's seed_size recheck at line 566 compares a
local constant against itself and can never fail, so it contributes no
path. -/
def tpm2_read_trusty_seed (nv : TrustySeedNv) (buf : List Nat) :
    EfiStatus × TrustySeedNv × List Nat :=
  let r := tpm2NvRead nv
  let buf1 := if r.1 = EfiStatus.success then r.2 else buf
  let r2 := tpm2NvReadLock nv
  if r.1 ≠ EfiStatus.success then (r.1, r2.2, List.replicate 32 0)
  else if r2.1 ≠ EfiStatus.success then (r2.1, r2.2, List.replicate 32 0)
  else (EfiStatus.success, r2.2, buf1)

/-! ## get_current_state (claim C6) -/

/-- enum device_state (vars.h): UNKNOWN_STATE, LOCKED, UNLOCKED. -/
inductive DeviceState
  | unknownState
  | locked
  | unlocked
  deriving DecidableEq, Repr

/-- get_current_state (vars.c:285-352) as a function of the signals it
consults: the cached lock state (module variable current_state), whether
this is a live boot, the result of reading the stored lock-state byte
(TPM, TEE or EFI-variable backing, all returning a status and a byte),
whether the boot device is virtual, the life-cycle ENDUSER query, and the
build type (USER vs userdebug).  Returns the new current_state.
set_provisioning_mode(b) (vars.c:231-235) sets current_state to UNLOCKED
when b and LOCKED otherwise, which is what the provisioning branch
returns. -/
def get_current_state (cached : DeviceState) (liveBoot : Bool)
    (readState : Except EfiStatus Nat) (virtualBootDev : Bool)
    (lifeCycleEnduser : Except EfiStatus Bool) (userBuild : Bool) :
    DeviceState :=
  if cached ≠ DeviceState.unknownState then cached
  else if liveBoot then DeviceState.unlocked
  else
    match readState with
    | Except.error e =>
      if e = EfiStatus.notFound ∧ ¬virtualBootDev then
        -- set_provisioning_mode(FALSE): current_state = LOCKED
        match lifeCycleEnduser with
        | Except.error le =>
          if le = EfiStatus.notFound then DeviceState.unlocked
          else DeviceState.locked
        | Except.ok enduser =>
          if ¬enduser then DeviceState.unlocked
          else if userBuild then DeviceState.locked
          else DeviceState.unlocked
      else if userBuild then DeviceState.locked
      else DeviceState.unlocked
    | Except.ok b =>
      if b % 2 = 1 then DeviceState.unlocked else DeviceState.locked

/-! ## check_magic_key (claim C8) -/

/-- EFI_RESET_WAIT_MS (kernelflinger.c:93). -/
def EFI_RESET_WAIT_MS : Nat := 200

/-- FASTBOOT_HOLD_DELAY in milliseconds (kernelflinger.c:101). -/
def FASTBOOT_HOLD_DELAY : Nat := 2 * 1000

/-- The wait window check_magic_key uses (kernelflinger.c:175-191): the
MagicKeyTimeout variable when readable, except that a value above 1000 is
treated as pathological and replaced by the 200 ms default; when the
variable cannot be read the default is used. -/
def magicKeyWaitMs (timeoutVar : Option Nat) : Nat :=
  match timeoutVar with
  | none => EFI_RESET_WAIT_MS
  | some v => if v > 1000 then EFI_RESET_WAIT_MS else v

/-- check_magic_key (kernelflinger.c:170-217).  `poll i` is the outcome
of the ReadKeyStroke attempt at millisecond i (DETECT_KEY_STALL_TIME_MS =
1 ms between attempts): none for a not-ready console, `some isMagic` for
a successful read whose scancode does (or does not) map to the magic key
under ui_keycode_to_event.  `heldAfterDelay` is the result of
ui_enforce_key_held(FASTBOOT_HOLD_DELAY, MAGIC_KEY) (UI layer, out of
scope per the spec).  The loop attempts indices 0..waitMs and stops at
the first successful read. -/
def check_magic_key (timeoutVar : Option Nat) (poll : Nat → Option Bool)
    (heldAfterDelay : Bool) : BootTarget :=
  match (List.range (magicKeyWaitMs timeoutVar + 1)).findSome? poll with
  | none => BootTarget.normalBoot
  | some isMagic =>
    if isMagic then
      if heldAfterDelay then BootTarget.fastboot else BootTarget.normalBoot
    else BootTarget.normalBoot

/-! ## check_battery_inserted (claim C5) -/

/-- check_battery_inserted (kernelflinger.c:805-817): returns POWER_OFF
only when off-mode-charge is ENABLED and the wake source is
battery-inserted. -/
def check_battery_inserted (offModeCharge : Bool) (wake : WakeSource) :
    BootTarget :=
  if ¬offModeCharge then BootTarget.normalBoot
  else if wake = WakeSource.batteryInserted then BootTarget.powerOff
  else BootTarget.normalBoot

/-! ## check_watchdog (claim C7) -/

/-- enum reset_sources (rsci header): the reset sources inspected by
reset_is_due_to_watchdog_or_panic. -/
inductive ResetSource
  | notApplicable
  | osInitiated
  | forced
  | kernelWatchdog
  | securityWatchdog
  | pmicWatchdog
  | ecWatchdog
  | platformSpecific
  | other
  deriving DecidableEq, Repr

/-- WATCHDOG_DELAY in seconds (kernelflinger.c:131). -/
def WATCHDOG_DELAY : Nat := 10 * 60

/-- WATCHDOG_COUNTER_MAX (vars.c:72), the default maximum;
get_watchdog_counter_max (vars.c:597-608) lets userdebug builds override
it with any byte through the WatchdogCounterMax variable. -/
def WATCHDOG_COUNTER_MAX : Nat := 2

/-- reset_is_due_to_watchdog_or_panic (kernelflinger.c:338-358): the
reset source is one of the four watchdog sources, or the saved reboot
reason contains kernel_panic or watchdog. -/
def reset_is_due_to_watchdog_or_panic (rs : ResetSource)
    (reasonKernelPanic reasonWatchdog : Bool) : Bool :=
  (rs == ResetSource.kernelWatchdog || rs == ResetSource.securityWatchdog ||
    rs == ResetSource.pmicWatchdog || rs == ResetSource.ecWatchdog) ||
  reasonKernelPanic || reasonWatchdog

/-- check_watchdog (kernelflinger.c:365-442) over the signals it reads
and the logical watchdog store.  Inputs: crash-event-menu flag;
whether get_watchdog_status succeeded; the stored counter byte (0 when
the variable is absent); the stored time reference in seconds (none when
absent); the watchdog/panic predicate; build type and saved-shutdown
reason (the `#ifdef USER` branch at lines 391-396); whether GetTime
succeeded; the current time in seconds; the counter maximum; whether the
build has a UI (`#ifdef USE_UI`, line 433); and the target the crash-event
prompt would return.  EFI-variable writes are modelled as succeeding.
Result: (boot target, stored counter, stored time reference); the
counter is a UINT8, so the increment wraps at 256. -/
def check_watchdog (crashMenu statusReadOk : Bool) (counter : Nat)
    (timeRef : Option Nat) (wdPanicReset userBuild shutdownReason : Bool)
    (timeReadOk : Bool) (now counterMax : Nat) (useUi : Bool)
    (promptTarget : BootTarget) : BootTarget × Nat × Option Nat :=
  if ¬crashMenu then (BootTarget.normalBoot, counter, timeRef)
  else if ¬statusReadOk then (BootTarget.normalBoot, counter, timeRef)
  else if ¬wdPanicReset then
    if counter ≠ 0 then (BootTarget.normalBoot, 0, none)
    else (BootTarget.normalBoot, counter, timeRef)
  else if userBuild ∧ shutdownReason then
    (BootTarget.powerOff, counter, timeRef)
  else if ¬timeReadOk then (BootTarget.normalBoot, counter, timeRef)
  else
    let tr := timeRef.getD 0
    let c1 := if 0 < counter ∧ (now < tr ∨ now - tr > WATCHDOG_DELAY)
      then 0 else counter
    let tr1 := if c1 = 0 then some now else timeRef
    let c2 := (c1 + 1) % 256
    if c2 ≤ counterMax then (BootTarget.normalBoot, c2, tr1)
    else if useUi then (promptTarget, 0, none)
    else (BootTarget.normalBoot, 0, none)

/-- The watchdog policy exactly as the claim words it: reset the stored
counter to zero when more than 600 seconds have elapsed since the stored
time reference and otherwise increment it; delegate to the user prompt
exactly when the resulting counter exceeds the maximum.  Result: (boot
target, stored counter). -/
def watchdogClaimPolicy (counter timeRef now counterMax : Nat)
    (promptTarget : BootTarget) : BootTarget × Nat :=
  let c := if now - timeRef > WATCHDOG_DELAY then 0 else counter + 1
  (if c > counterMax then promptTarget else BootTarget.normalBoot, c)

/-! ## choose_boot_target (claim C3) -/

/-- Modelled from the spec: name_to_boot_target (libkernelflinger, not
under src/) maps a target name to the corresponding member of the
BootTarget vocabulary of §1/§3 and anything else to UNKNOWN_TARGET. -/
def nameToBootTarget : String → BootTarget
  | "normal" => BootTarget.normalBoot
  | "recovery" => BootTarget.recovery
  | "fastboot" => BootTarget.fastboot
  | "bootloader" => BootTarget.fastboot
  | "charging" => BootTarget.charger
  | "crashmode" => BootTarget.crashmode
  | "dnx" => BootTarget.dnx
  | _ => BootTarget.unknownTarget

/-- check_loader_entry_one_shot (kernelflinger.c:304-336) for targets
that are plain names (the dm-verity string and the variable-file paths
only produce side effects or NORMAL_BOOT): an unknown name degrades to
NORMAL_BOOT, a Charger target collapses to POWER_OFF when
off-mode-charging is disabled. -/
def checkLoaderEntryOneShot (var : Option String) (offModeCharge : Bool) :
    BootTarget :=
  match var with
  | none => BootTarget.normalBoot
  | some t =>
    match nameToBootTarget t with
    | BootTarget.unknownTarget => BootTarget.normalBoot
    | BootTarget.charger =>
      if ¬offModeCharge then BootTarget.powerOff else BootTarget.charger
    | bt => bt

/-- choose_boot_target (kernelflinger.c:875-957) as a function of the
results of its check stages (each stage is a separate function of
disjoint signals; the `#ifndef USE_SBL` battery stages are included).
The stage order and the short-circuiting, the canonicalisation of a
persistent BCB Fastboot target to Recovery (lines 925-926), and the
treatment of a DNX result from the one-shot variable as normal (line
933) are the code's. -/
def choose_boot_target (cmdline sentinel magicKey watchdog batteryIns
    bcbTarget : BootTarget) (bcbOneshot : Bool)
    (oneShot battery chargeMode : BootTarget) : BootTarget :=
  if cmdline ≠ BootTarget.normalBoot then cmdline
  else if sentinel ≠ BootTarget.normalBoot then sentinel
  else if magicKey ≠ BootTarget.normalBoot then magicKey
  else if watchdog ≠ BootTarget.normalBoot then watchdog
  else if batteryIns ≠ BootTarget.normalBoot then batteryIns
  else if bcbTarget ≠ BootTarget.normalBoot then
    (if bcbOneshot then bcbTarget
     else if bcbTarget = BootTarget.fastboot then BootTarget.recovery
     else bcbTarget)
  else if oneShot ≠ BootTarget.dnx ∧ oneShot ≠ BootTarget.normalBoot then
    oneShot
  else if battery ≠ BootTarget.normalBoot then battery
  else chargeMode

/-- First element of the list that differs from NormalBoot, NormalBoot
when there is none. -/
def firstNonNormal : List BootTarget → BootTarget
  | [] => BootTarget.normalBoot
  | t :: ts => if t = BootTarget.normalBoot then firstNonNormal ts else t

/-- The decision procedure exactly as the claim words it: the first
stage result different from NormalBoot in the fixed order, with a
persistent BCB Fastboot target canonicalised to Recovery. -/
def chooseBootTargetAsClaimed (cmdline sentinel magicKey watchdog
    batteryIns bcbTarget : BootTarget) (bcbOneshot : Bool)
    (oneShot battery chargeMode : BootTarget) : BootTarget :=
  firstNonNormal [cmdline, sentinel, magicKey, watchdog, batteryIns,
    (if bcbTarget = BootTarget.fastboot ∧ ¬bcbOneshot then
      BootTarget.recovery else bcbTarget),
    oneShot, battery, chargeMode]

/-- The decision procedure as amended: identical to the claim's wording
except that a one-shot-variable result of Dnx is ignored (treated as
NormalBoot, so evaluation continues). -/
def chooseBootTargetAmended (cmdline sentinel magicKey watchdog
    batteryIns bcbTarget : BootTarget) (bcbOneshot : Bool)
    (oneShot battery chargeMode : BootTarget) : BootTarget :=
  firstNonNormal [cmdline, sentinel, magicKey, watchdog, batteryIns,
    (if bcbTarget = BootTarget.fastboot ∧ ¬bcbOneshot then
      BootTarget.recovery else bcbTarget),
    (if oneShot = BootTarget.dnx then BootTarget.normalBoot else oneShot),
    battery, chargeMode]

/-! ## setup_e820_map (claim C4) -/

/-- An EFI memory descriptor as setup_e820_map consumes it: the UINT32
type code, the physical start address, and the number of 4 KiB pages. -/
structure MemDescriptor where
  memType : Nat
  physicalStart : Nat
  numberOfPages : Nat
  deriving DecidableEq, Repr

/-- One struct e820_entry (addr, size, type). -/
structure E820Entry where
  addr : Nat
  size : Nat
  entryType : Nat
  deriving DecidableEq, Repr

/-- E820 type codes (android.c:139-143). -/
def E820_RAM : Nat := 1

def E820_RESERVED : Nat := 2

def E820_ACPI : Nat := 3

def E820_NVS : Nat := 4

def E820_UNUSABLE : Nat := 5

/-- The switch in setup_e820_map (android.c:330-362) over EFI memory-type
codes (0 ReservedMemoryType, 1 LoaderCode, 2 LoaderData,
3 BootServicesCode, 4 BootServicesData, 5 RuntimeServicesCode,
6 RuntimeServicesData, 7 ConventionalMemory, 8 UnusableMemory,
9 ACPIReclaimMemory, 10 ACPIMemoryNVS, 11 MemoryMappedIO,
12 MemoryMappedIOPortSpace, 13 PalCode).  none models the
`default: continue` branch: the descriptor produces no entry at all. -/
def classifyE820 : Nat → Option Nat
  | 0 => some E820_RESERVED
  | 1 => some E820_RAM
  | 2 => some E820_RAM
  | 3 => some E820_RAM
  | 4 => some E820_RAM
  | 5 => some E820_RESERVED
  | 6 => some E820_RESERVED
  | 7 => some E820_RAM
  | 8 => some E820_UNUSABLE
  | 9 => some E820_ACPI
  | 10 => some E820_NVS
  | 11 => some E820_RESERVED
  | 12 => some E820_RESERVED
  | 13 => some E820_RESERVED
  | _ => none

/-- One iteration of the loop in setup_e820_map (android.c:325-375).
The accumulator is the e820 table built so far in reverse order (head =
entry n_page - 1 of the C array): a mapped descriptor either extends the
previous entry when the type matches and the region is contiguous
(android.c:364-369), or appends a fresh entry. -/
def e820Step (acc : List E820Entry) (d : MemDescriptor) : List E820Entry :=
  match classifyE820 d.memType with
  | none => acc
  | some t =>
    match acc with
    | prev :: rest =>
      if prev.entryType = t ∧ prev.addr + prev.size = d.physicalStart then
        ⟨prev.addr, prev.size + d.numberOfPages * 4096, prev.entryType⟩ ::
          rest
      else ⟨d.physicalStart, d.numberOfPages * 4096, t⟩ :: prev :: rest
    | [] => [⟨d.physicalStart, d.numberOfPages * 4096, t⟩]

/-- setup_e820_map (android.c:317-378); NumberOfPages << EFI_PAGE_SHIFT
is pages * 4096. -/
def setup_e820_map (ds : List MemDescriptor) : List E820Entry :=
  (ds.foldl e820Step []).reverse

/-- The same loop step over already-classified entries; used to relate
the code's fold to the specification-style two-pass description. -/
def e820MergeStep (acc : List E820Entry) (e : E820Entry) :
    List E820Entry :=
  match acc with
  | prev :: rest =>
    if prev.entryType = e.entryType ∧ prev.addr + prev.size = e.addr then
      ⟨prev.addr, prev.size + e.size, prev.entryType⟩ :: rest
    else e :: prev :: rest
  | [] => [e]

/-- Specification-style coalescing pass: merge a maximal run of
type-equal, address-contiguous entries into one. -/
def coalesceRun (cur : E820Entry) : List E820Entry → List E820Entry
  | [] => [cur]
  | e :: es =>
    if cur.entryType = e.entryType ∧ cur.addr + cur.size = e.addr then
      coalesceRun ⟨cur.addr, cur.size + e.size, cur.entryType⟩ es
    else cur :: coalesceRun e es

/-- Coalesce adjacent entries of equal type covering contiguous
addresses. -/
def coalesce : List E820Entry → List E820Entry
  | [] => []
  | e :: es => coalesceRun e es

/-- The classification exactly as the claim words it: the five RAM
types, ACPI reclaim, ACPI NVS and unusable as the code does, and every
other descriptor type mapped to E820_RESERVED. -/
def classifyE820AsClaimed : Nat → Nat
  | 1 => E820_RAM
  | 2 => E820_RAM
  | 3 => E820_RAM
  | 4 => E820_RAM
  | 7 => E820_RAM
  | 9 => E820_ACPI
  | 10 => E820_NVS
  | 8 => E820_UNUSABLE
  | _ => E820_RESERVED

/-- The E820 table exactly as the claim words it: classify every
descriptor (everything unknown becoming E820_RESERVED), then coalesce. -/
def e820AsClaimed (ds : List MemDescriptor) : List E820Entry :=
  coalesce (ds.map fun d =>
    ⟨d.physicalStart, d.numberOfPages * 4096, classifyE820AsClaimed d.memType⟩)

/-- The E820 table as amended: descriptors whose type is outside the
code's switch produce no entry; the rest are classified and coalesced. -/
def e820Amended (ds : List MemDescriptor) : List E820Entry :=
  coalesce (ds.filterMap fun d =>
    (classifyE820 d.memType).map fun t =>
      ⟨d.physicalStart, d.numberOfPages * 4096, t⟩)

/-! ## read_bcb (claim C9) -/

/-- struct bootloader_message (AOSP BCB layout, spec §6.1): command and
status are 32-byte fields, recovery 768 bytes; modelled as byte lists. -/
structure BootloaderMessage where
  command : List Nat
  status : List Nat
  recovery : List Nat
  deriving DecidableEq, Repr

/-- read_bcb (android.c:2238-2265), successful path: after the raw
sector read, the last byte of the command and status fields is forced to
NUL (android.c:2260-2261); nothing else is altered. -/
def read_bcb (raw : BootloaderMessage) : BootloaderMessage :=
  ⟨raw.command.set 31 0, raw.status.set 31 0, raw.recovery⟩

/-- strlen over a modelled C byte buffer: index of the first NUL. -/
def cStringLength (bytes : List Nat) : Nat := bytes.findIdx (· == 0)

end Kernelflinger

namespace Kernelflinger

/-- C1: the claim asserts a decrease is refused with a PolicyViolation and
the stored value kept.  The code refuses nothing: at stored value 5,
writing 3 into slot 0 succeeds on both backings and a subsequent read
returns 3. -/
theorem C1_counterexample :
    (write_rollback_index_tpm2 0 3 ⟨1, 0, [5, 0, 0, 0, 0, 0, 0, 0]⟩).1 =
      EfiStatus.success ∧
    read_rollback_index_tpm2 0
      (write_rollback_index_tpm2 0 3 ⟨1, 0, [5, 0, 0, 0, 0, 0, 0, 0]⟩).2 =
      (EfiStatus.success, 3) ∧
    (write_efi_rollback_index 0 3 (fun s => if s = 0 then some 5 else none)).1 =
      EfiStatus.success ∧
    read_efi_rollback_index 0
      (write_efi_rollback_index 0 3 (fun s => if s = 0 then some 5 else none)).2 =
      (EfiStatus.success, 3) ∧
    (3 : Nat) < 5 := by
  refine ⟨rfl, rfl, rfl, rfl, by norm_num⟩

/-- C1 (amended): neither backing performs a monotonicity check.  For
every slot below 8 and every value, including values smaller than the
stored one, write_rollback_index_tpm2 succeeds and a subsequent read
returns the new value; only slots >= 8 are refused, with
EFI_INVALID_PARAMETER, leaving the state unchanged.
write_efi_rollback_index likewise sets the variable unconditionally. -/
theorem C1_rollback_write_unchecked (st : Tpm2Bootloader) (slot v : Nat)
    (hlen : st.rollback.length = 8) (hslot : slot < 8)
    (store : EfiRollbackStore) :
    (write_rollback_index_tpm2 slot v st).1 = EfiStatus.success ∧
    read_rollback_index_tpm2 slot (write_rollback_index_tpm2 slot v st).2 =
      (EfiStatus.success, v) ∧
    (∀ s ≥ 8, ∀ w, write_rollback_index_tpm2 s w st =
      (EfiStatus.invalidParameter, st)) ∧
    (write_efi_rollback_index slot v store).1 = EfiStatus.success ∧
    read_efi_rollback_index slot (write_efi_rollback_index slot v store).2 =
      (EfiStatus.success, v) := by
  have hnot : ¬slot ≥ 8 := by omega
  refine ⟨?_, ?_, ?_, ?_, ?_⟩
  · simp [write_rollback_index_tpm2, hnot]
  · have hget : (st.rollback.set slot v)[slot]? = some v := by
      rw [List.getElem?_set_self]
      omega
    simp [write_rollback_index_tpm2, read_rollback_index_tpm2, hnot, hget]
  · intro s hs w
    simp [write_rollback_index_tpm2, hs]
  · rfl
  · simp [write_efi_rollback_index, read_efi_rollback_index]

/-- C1 witness: the amended theorem applied at slot 0, value 3, on a
concrete 8-slot record. -/
theorem C1_witness :
    (write_rollback_index_tpm2 0 3 ⟨1, 0, [5, 0, 0, 0, 0, 0, 0, 0]⟩).1 =
      EfiStatus.success ∧
    read_rollback_index_tpm2 0
      (write_rollback_index_tpm2 0 3 ⟨1, 0, [5, 0, 0, 0, 0, 0, 0, 0]⟩).2 =
      (EfiStatus.success, 3) ∧
    (∀ s ≥ 8, ∀ w, write_rollback_index_tpm2 s w ⟨1, 0, [5, 0, 0, 0, 0, 0, 0, 0]⟩ =
      (EfiStatus.invalidParameter, ⟨1, 0, [5, 0, 0, 0, 0, 0, 0, 0]⟩)) ∧
    (write_efi_rollback_index 0 3 (fun _ => none)).1 = EfiStatus.success ∧
    read_efi_rollback_index 0
      (write_efi_rollback_index 0 3 (fun _ => none)).2 =
      (EfiStatus.success, 3) :=
  C1_rollback_write_unchecked ⟨1, 0, [5, 0, 0, 0, 0, 0, 0, 0]⟩ 0 3 rfl
    (by norm_num) (fun _ => none)

/-- C2: within one boot cycle tpm2_read_trusty_seed succeeds at most
once.  The first call read-locks NV index 0x01500080 whether or not the
read succeeded, so every subsequent call in the same boot returns an
error; on a provisioned device (index defined) the second call returns
AccessDenied. -/
theorem C2_trusty_seed_read_at_most_once (nv : TrustySeedNv)
    (buf buf2 : List Nat) :
    (tpm2_read_trusty_seed (tpm2_read_trusty_seed nv buf).2.1 buf2).1 ≠
      EfiStatus.success ∧
    (nv.defined = true →
      (tpm2_read_trusty_seed nv buf).2.1.readLocked = true) ∧
    (nv.defined = true →
      (tpm2_read_trusty_seed (tpm2_read_trusty_seed nv buf).2.1 buf2).1 =
        EfiStatus.accessDenied) := by
  rcases nv with ⟨d, rl, s⟩
  cases d <;> cases rl <;>
    simp [tpm2_read_trusty_seed, tpm2NvRead, tpm2NvReadLock]

/-- C2 witness: on a freshly provisioned, unlocked seed index, the first
call succeeds and the second returns AccessDenied. -/
theorem C2_witness :
    (tpm2_read_trusty_seed
        (tpm2_read_trusty_seed ⟨true, false, List.replicate 32 7⟩ []).2.1 []).1 ≠
      EfiStatus.success ∧
    ((true : Bool) = true →
      (tpm2_read_trusty_seed ⟨true, false, List.replicate 32 7⟩ []).2.1.readLocked =
        true) ∧
    ((true : Bool) = true →
      (tpm2_read_trusty_seed
          (tpm2_read_trusty_seed ⟨true, false, List.replicate 32 7⟩ []).2.1 []).1 =
        EfiStatus.accessDenied) :=
  C2_trusty_seed_read_at_most_once ⟨true, false, List.replicate 32 7⟩ [] []

/-- C10: whenever tpm2_read_trusty_seed returns an error, the caller's
seed buffer holds 32 zero bytes: every failure path (read failure,
read-lock failure) runs the memset_s at tpm2_security.c:576 before
returning. -/
theorem C10_failed_seed_read_zeroises (nv : TrustySeedNv) (buf : List Nat)
    (h : (tpm2_read_trusty_seed nv buf).1 ≠ EfiStatus.success) :
    (tpm2_read_trusty_seed nv buf).2.2 = List.replicate 32 0 := by
  rcases nv with ⟨d, rl, s⟩
  cases d <;> cases rl <;>
    simp_all [tpm2_read_trusty_seed, tpm2NvRead, tpm2NvReadLock]

/-- C10 witness: reading from an unfused seed index fails and returns an
all-zero buffer, even though the caller's buffer held nonzero bytes. -/
theorem C10_witness :
    (tpm2_read_trusty_seed ⟨false, false, []⟩ (List.replicate 32 9)).1 ≠
      EfiStatus.success ∧
    (tpm2_read_trusty_seed ⟨false, false, []⟩ (List.replicate 32 9)).2.2 =
      List.replicate 32 0 := by
  have h : (tpm2_read_trusty_seed ⟨false, false, []⟩
      (List.replicate 32 9)).1 ≠ EfiStatus.success := by decide
  exact ⟨h, C10_failed_seed_read_zeroises ⟨false, false, []⟩
    (List.replicate 32 9) h⟩

/-- C6: when the stored lock state cannot be read and the absent-record
provisioning path (EFI_NOT_FOUND on a non-virtual boot device) does not
apply, get_current_state assumes Locked on user builds and Unlocked on
userdebug builds (vars.c:330-340). -/
theorem C6_read_failure_defaults (e : EfiStatus) (virt : Bool)
    (lc : Except EfiStatus Bool) (userBuild : Bool)
    (hprov : e ≠ EfiStatus.notFound ∨ virt = true) :
    get_current_state DeviceState.unknownState false (Except.error e) virt
        lc userBuild =
      if userBuild then DeviceState.locked else DeviceState.unlocked := by
  have hcond : ¬(e = EfiStatus.notFound ∧ ¬(virt = true)) := by
    rcases hprov with h | h
    · exact fun hc => h hc.1
    · exact fun hc => hc.2 h
  cases virt <;> cases userBuild <;>
    simp_all [get_current_state]

/-- C6 witness: a device-error read on a user build yields Locked. -/
theorem C6_witness :
    get_current_state DeviceState.unknownState false
        (Except.error EfiStatus.deviceError) false
        (Except.ok true) true =
      if true then DeviceState.locked else DeviceState.unlocked :=
  C6_read_failure_defaults EfiStatus.deviceError false (Except.ok true) true
    (Or.inl (by decide))

/-- C8: the magic-key poll window is the MagicKeyTimeout value bounded by
min(value, 1000) ms — 200 ms by default, and a pathological value above
1000 falls back to the 200 ms default, so the window never exceeds
1000 ms — and Fastboot is returned exactly when the key poll senses the
magic key and the key is still held after the FASTBOOT_HOLD_DELAY =
2000 ms hold check. -/
theorem C8_magic_key_window_and_result (v : Nat) (timeoutVar : Option Nat)
    (poll : Nat → Option Bool) (held : Bool) :
    magicKeyWaitMs none = 200 ∧
    magicKeyWaitMs (some v) ≤ min v 1000 ∧
    FASTBOOT_HOLD_DELAY = 2000 ∧
    (check_magic_key timeoutVar poll held = BootTarget.fastboot ↔
      (List.range (magicKeyWaitMs timeoutVar + 1)).findSome? poll =
          some true ∧
        held = true) := by
  refine ⟨rfl, ?_, rfl, ?_⟩
  · simp only [magicKeyWaitMs, EFI_RESET_WAIT_MS]
    split <;> omega
  · unfold check_magic_key
    cases hf : (List.range (magicKeyWaitMs timeoutVar + 1)).findSome? poll with
    | none => simp
    | some b => cases b <;> cases held <;> simp

/-- The code's fold over raw descriptors equals the merge-step fold over
the classified entries: descriptors outside the switch contribute
nothing. -/
theorem e820_foldl_filterMap (ds : List MemDescriptor)
    (acc : List E820Entry) :
    ds.foldl e820Step acc =
      (ds.filterMap fun d => (classifyE820 d.memType).map fun t =>
        (⟨d.physicalStart, d.numberOfPages * 4096, t⟩ : E820Entry)).foldl
        e820MergeStep acc := by
  induction ds generalizing acc with
  | nil => rfl
  | cons d ds ih =>
    cases hcl : classifyE820 d.memType with
    | none =>
      have hstep : e820Step acc d = acc := by simp [e820Step, hcl]
      rw [List.foldl_cons, hstep, ih, List.filterMap_cons_none]
      simp [hcl]
    | some t =>
      have hstep : e820Step acc d =
          e820MergeStep acc ⟨d.physicalStart, d.numberOfPages * 4096, t⟩ := by
        cases acc <;> simp [e820Step, e820MergeStep, hcl]
      rw [List.foldl_cons, hstep, ih]
      conv_rhs => rw [List.filterMap_cons]
      simp only [hcl, Option.map_some']
      rw [List.foldl_cons]

/-- Reversing the merge-step fold yields the specification-style
coalescing pass. -/
theorem e820_foldl_mergeStep_reverse (es : List E820Entry)
    (cur : E820Entry) (accRev : List E820Entry) :
    (es.foldl e820MergeStep (cur :: accRev)).reverse =
      accRev.reverse ++ coalesceRun cur es := by
  induction es generalizing cur accRev with
  | nil => simp [coalesceRun]
  | cons e es ih =>
    rw [List.foldl_cons]
    by_cases hcond : cur.entryType = e.entryType ∧ cur.addr + cur.size = e.addr
    · have hm : e820MergeStep (cur :: accRev) e =
          ⟨cur.addr, cur.size + e.size, cur.entryType⟩ :: accRev := by
        simp [e820MergeStep, hcond]
      rw [hm, ih]
      simp only [coalesceRun]
      rw [if_pos hcond]
    · have hm : e820MergeStep (cur :: accRev) e = e :: cur :: accRev := by
        simp [e820MergeStep, hcond]
      rw [hm, ih, List.reverse_cons]
      simp only [coalesceRun]
      rw [if_neg hcond, List.append_assoc, List.singleton_append]

/-- C4: the claim maps every descriptor type outside the named ones to
E820_RESERVED, but the switch's default branch skips the descriptor
entirely (android.c:360-361): a type-14 (EfiPersistentMemory) descriptor
yields an empty table where the claim's rule yields one reserved
entry. -/
theorem C4_counterexample :
    setup_e820_map [⟨14, 0, 1⟩] = [] ∧
    e820AsClaimed [⟨14, 0, 1⟩] = [⟨0, 4096, E820_RESERVED⟩] ∧
    ([] : List E820Entry) ≠ [⟨0, 4096, E820_RESERVED⟩] := by
  refine ⟨rfl, rfl, by decide⟩

/-- C4 (amended): setup_e820_map classifies EfiLoaderCode/Data,
EfiBootServicesCode/Data and EfiConventionalMemory as E820_RAM,
EfiACPIReclaimMemory as E820_ACPI, EfiACPIMemoryNVS as E820_NVS,
EfiUnusableMemory as E820_UNUSABLE, and EfiReservedMemoryType,
EfiRuntimeServicesCode/Data, the two MMIO types and EfiPalCode as
E820_RESERVED; any other descriptor type is omitted from the table; and
adjacent entries of equal type covering contiguous addresses are
coalesced into one entry. -/
theorem C4_e820_construction (ds : List MemDescriptor) :
    setup_e820_map ds = e820Amended ds := by
  rw [setup_e820_map, e820Amended, e820_foldl_filterMap]
  cases hm : ds.filterMap fun d => (classifyE820 d.memType).map fun t =>
    (⟨d.physicalStart, d.numberOfPages * 4096, t⟩ : E820Entry) with
  | nil => rfl
  | cons e es =>
    rw [List.foldl_cons]
    have h0 : e820MergeStep [] e = [e] := rfl
    rw [h0]
    have h1 := e820_foldl_mergeStep_reverse es e []
    simpa [coalesce] using h1

/-- If index i of the list holds a NUL, the first NUL is at or before
index i. -/
theorem findIdx_zero_le_of_getElem (l : List Nat) (i : Nat)
    (h : l[i]? = some 0) : l.findIdx (· == 0) ≤ i := by
  induction l generalizing i with
  | nil => simp at h
  | cons a l ih =>
    cases i with
    | zero =>
      rw [List.getElem?_cons_zero, Option.some_inj] at h
      subst h
      simp [List.findIdx_cons]
    | succ n =>
      rw [List.getElem?_cons_succ] at h
      by_cases ha : a == 0
      · simp [List.findIdx_cons, ha]
      · rw [Bool.not_eq_true] at ha
        rw [List.findIdx_cons, ha]
        have := ih n h
        simp only [cond_false]
        omega

/-- C9: a successful read_bcb forces the last byte of the 32-byte
command and status fields to NUL, so both are NUL-terminated strings of
at most 31 characters regardless of the on-disk content. -/
theorem C9_bcb_fields_nul_terminated (raw : BootloaderMessage)
    (hc : raw.command.length = 32) (hs : raw.status.length = 32) :
    (read_bcb raw).command.length = 32 ∧
    (read_bcb raw).command[31]? = some 0 ∧
    cStringLength (read_bcb raw).command ≤ 31 ∧
    (read_bcb raw).status.length = 32 ∧
    (read_bcb raw).status[31]? = some 0 ∧
    cStringLength (read_bcb raw).status ≤ 31 := by
  have h31c : (raw.command.set 31 0)[31]? = some 0 := by
    rw [List.getElem?_set_self]
    omega
  have h31s : (raw.status.set 31 0)[31]? = some 0 := by
    rw [List.getElem?_set_self]
    omega
  exact ⟨by simp [read_bcb, hc], h31c,
    findIdx_zero_le_of_getElem _ 31 h31c,
    by simp [read_bcb, hs], h31s,
    findIdx_zero_le_of_getElem _ 31 h31s⟩

/-- C9 witness: a BCB whose command and status fields were read back
from disk with no NUL at all still yields NUL-terminated fields. -/
theorem C9_witness :
    (read_bcb ⟨List.replicate 32 65, List.replicate 32 66,
        []⟩).command.length = 32 ∧
    (read_bcb ⟨List.replicate 32 65, List.replicate 32 66,
        []⟩).command[31]? = some 0 ∧
    cStringLength (read_bcb ⟨List.replicate 32 65, List.replicate 32 66,
        []⟩).command ≤ 31 ∧
    (read_bcb ⟨List.replicate 32 65, List.replicate 32 66,
        []⟩).status.length = 32 ∧
    (read_bcb ⟨List.replicate 32 65, List.replicate 32 66,
        []⟩).status[31]? = some 0 ∧
    cStringLength (read_bcb ⟨List.replicate 32 65, List.replicate 32 66,
        []⟩).status ≤ 31 :=
  C9_bcb_fields_nul_terminated ⟨List.replicate 32 65, List.replicate 32 66, []⟩
    (by simp) (by simp)

/-- C5: the claim asserts PowerOff when the wake source is
battery-inserted and off-mode-charging is DISABLED.  With off-mode-charge
disabled the code returns NormalBoot unconditionally (kernelflinger.c:809);
the battery-inserted test is only reached when off-mode-charge is
enabled. -/
theorem C5_counterexample :
    check_battery_inserted false WakeSource.batteryInserted =
      BootTarget.normalBoot ∧
    BootTarget.normalBoot ≠ BootTarget.powerOff := by
  exact ⟨rfl, by decide⟩

/-- C7: the claim's wording resets the counter without incrementing when
more than 600 s have elapsed, so with an (overridable) maximum of 0 it
predicts NormalBoot after a 601 s gap; the code resets the counter and
then still increments it (kernelflinger.c:404-419), so the incremented
counter 1 exceeds the maximum and the crash-event prompt is delegated
to.  The stored counter also differs: the code stores 1 where the claim
stores 0. -/
theorem C7_counterexample :
    check_watchdog true true 1 (some 0) true false false true 601 0 true
        BootTarget.fastboot = (BootTarget.fastboot, 0, none) ∧
    watchdogClaimPolicy 1 0 601 0 BootTarget.fastboot =
      (BootTarget.normalBoot, 0) ∧
    check_watchdog true true 1 (some 0) true false false true 601 2 true
        BootTarget.fastboot = (BootTarget.normalBoot, 1, some 601) ∧
    watchdogClaimPolicy 1 0 601 2 BootTarget.fastboot =
      (BootTarget.normalBoot, 0) ∧
    BootTarget.fastboot ≠ BootTarget.normalBoot ∧ (1 : Nat) ≠ 0 := by
  refine ⟨by decide, by decide, by decide, by decide, by decide, by decide⟩

/-- C7 (amended): on every boot where the crash-event menu is enabled,
the watchdog status is readable, the reset is due to one of the four
watchdog sources or a kernel_panic/watchdog reboot reason, the
user-build shutdown shortcut does not apply, and the current time is
readable, check_watchdog first resets the counter to zero when the
stored reference is in the future or more than 600 seconds in the past,
then increments it by one; it stores the incremented counter and returns
NormalBoot when the result is at most the (overridable) maximum of 2,
re-storing the time reference whenever the counter had been (re)set to
zero, and otherwise clears the stored status and delegates to the user
prompt's crash-event selection. -/
theorem C7_watchdog_counter_policy (rs : ResetSource) (kp wdr : Bool)
    (counter : Nat) (timeRef : Option Nat)
    (userBuild shutdownReason : Bool) (now counterMax : Nat)
    (promptTarget : BootTarget) (c1 : Nat)
    (hwd : reset_is_due_to_watchdog_or_panic rs kp wdr = true)
    (hus : userBuild = false ∨ shutdownReason = false)
    (hc : counter ≤ 254)
    (hp : promptTarget ≠ BootTarget.normalBoot)
    (hc1 : c1 = if 0 < counter ∧
      (now < timeRef.getD 0 ∨ now - timeRef.getD 0 > WATCHDOG_DELAY)
      then 0 else counter) :
    ((check_watchdog true true counter timeRef
        (reset_is_due_to_watchdog_or_panic rs kp wdr) userBuild
        shutdownReason true now counterMax true promptTarget).1 =
        promptTarget ↔ c1 + 1 > counterMax) ∧
    (c1 + 1 ≤ counterMax →
      (check_watchdog true true counter timeRef
        (reset_is_due_to_watchdog_or_panic rs kp wdr) userBuild
        shutdownReason true now counterMax true promptTarget).1 =
        BootTarget.normalBoot) ∧
    (check_watchdog true true counter timeRef
        (reset_is_due_to_watchdog_or_panic rs kp wdr) userBuild
        shutdownReason true now counterMax true promptTarget).2.1 =
      (if c1 + 1 ≤ counterMax then c1 + 1 else 0) ∧
    (check_watchdog true true counter timeRef
        (reset_is_due_to_watchdog_or_panic rs kp wdr) userBuild
        shutdownReason true now counterMax true promptTarget).2.2 =
      (if c1 + 1 ≤ counterMax then (if c1 = 0 then some now else timeRef)
       else none) := by
  have hc1le : c1 ≤ counter := by rw [hc1]; split <;> omega
  have hmod : (c1 + 1) % 256 = c1 + 1 := Nat.mod_eq_of_lt (by omega)
  have hus' : ¬(userBuild = true ∧ shutdownReason = true) := by
    rcases hus with h | h <;> simp [h]
  have heval : check_watchdog true true counter timeRef
      (reset_is_due_to_watchdog_or_panic rs kp wdr) userBuild
      shutdownReason true now counterMax true promptTarget =
      if c1 + 1 ≤ counterMax
      then (BootTarget.normalBoot, c1 + 1,
        if c1 = 0 then some now else timeRef)
      else (promptTarget, 0, none) := by
    rw [hwd]
    simp only [check_watchdog]
    rw [← hc1]
    simp [hus', hmod]
  rw [heval]
  by_cases hle : c1 + 1 ≤ counterMax
  · simp only [if_pos hle]
    refine ⟨⟨fun h => absurd h.symm hp, fun h => absurd hle (by omega)⟩,
      ?_, ?_, ?_⟩ <;> first | trivial | (intro h; trivial)
  · simp only [if_neg hle]
    refine ⟨⟨fun _ => by omega, fun _ => trivial⟩,
      fun h => absurd h hle, ?_, ?_⟩ <;> trivial

/-- C7 witness: a third kernel-watchdog reset within 100 s of the stored
reference, counter 2, maximum 2: the incremented counter 3 exceeds the
maximum and the crash-event prompt's choice (here Fastboot) is
returned. -/
theorem C7_witness :
    ((check_watchdog true true 2 (some 100)
        (reset_is_due_to_watchdog_or_panic ResetSource.kernelWatchdog
          false false) false false true 200 2 true BootTarget.fastboot).1 =
        BootTarget.fastboot ↔ 2 + 1 > 2) ∧
    (2 + 1 ≤ 2 →
      (check_watchdog true true 2 (some 100)
        (reset_is_due_to_watchdog_or_panic ResetSource.kernelWatchdog
          false false) false false true 200 2 true BootTarget.fastboot).1 =
        BootTarget.normalBoot) ∧
    (check_watchdog true true 2 (some 100)
        (reset_is_due_to_watchdog_or_panic ResetSource.kernelWatchdog
          false false) false false true 200 2 true BootTarget.fastboot).2.1 =
      (if 2 + 1 ≤ 2 then 2 + 1 else 0) ∧
    (check_watchdog true true 2 (some 100)
        (reset_is_due_to_watchdog_or_panic ResetSource.kernelWatchdog
          false false) false false true 200 2 true BootTarget.fastboot).2.2 =
      (if 2 + 1 ≤ 2 then (if 2 = 0 then some 200 else some 100)
       else none) :=
  C7_watchdog_counter_policy ResetSource.kernelWatchdog false false 2
    (some 100) false false 200 2 BootTarget.fastboot 2 (by decide)
    (Or.inl rfl) (by norm_num) (by decide) (by decide)

/-- C3: the one-shot-variable stage can produce Dnx (the spec's target
vocabulary includes dnx), and choose_boot_target explicitly skips a DNX
result of that stage (kernelflinger.c:933), falling through to the
battery stages; the claim's first-non-NormalBoot rule would return Dnx.
With every other stage normal, the code returns NormalBoot. -/
theorem C3_counterexample :
    checkLoaderEntryOneShot (some "dnx") true = BootTarget.dnx ∧
    choose_boot_target BootTarget.normalBoot BootTarget.normalBoot
        BootTarget.normalBoot BootTarget.normalBoot BootTarget.normalBoot
        BootTarget.normalBoot false BootTarget.dnx BootTarget.normalBoot
        BootTarget.normalBoot = BootTarget.normalBoot ∧
    chooseBootTargetAsClaimed BootTarget.normalBoot BootTarget.normalBoot
        BootTarget.normalBoot BootTarget.normalBoot BootTarget.normalBoot
        BootTarget.normalBoot false BootTarget.dnx BootTarget.normalBoot
        BootTarget.normalBoot = BootTarget.dnx ∧
    BootTarget.normalBoot ≠ BootTarget.dnx := by
  refine ⟨rfl, by decide, by decide, by decide⟩

/-- C3 (amended): choose_boot_target evaluates its stages in the fixed
order command line, fastboot sentinel, magic key, watchdog,
battery-inserted, BCB, one-shot variable, battery threshold, charger
wake, and returns the first result different from NormalBoot, with a
persistent BCB Fastboot target canonicalised to Recovery and a
one-shot-variable Dnx result ignored; it is a pure function of the
stage results, emitting exactly one target. -/
theorem C3_ordered_first_non_normal (cmdline sentinel magicKey watchdog
    batteryIns bcbTarget : BootTarget) (bcbOneshot : Bool)
    (oneShot battery chargeMode : BootTarget) :
    choose_boot_target cmdline sentinel magicKey watchdog batteryIns
        bcbTarget bcbOneshot oneShot battery chargeMode =
      chooseBootTargetAmended cmdline sentinel magicKey watchdog
        batteryIns bcbTarget bcbOneshot oneShot battery chargeMode := by
  by_cases h1 : cmdline = BootTarget.normalBoot
  case neg =>
    simp [choose_boot_target, chooseBootTargetAmended, firstNonNormal, h1]
  subst h1
  by_cases h2 : sentinel = BootTarget.normalBoot
  case neg =>
    simp [choose_boot_target, chooseBootTargetAmended, firstNonNormal, h2]
  subst h2
  by_cases h3 : magicKey = BootTarget.normalBoot
  case neg =>
    simp [choose_boot_target, chooseBootTargetAmended, firstNonNormal, h3]
  subst h3
  by_cases h4 : watchdog = BootTarget.normalBoot
  case neg =>
    simp [choose_boot_target, chooseBootTargetAmended, firstNonNormal, h4]
  subst h4
  by_cases h5 : batteryIns = BootTarget.normalBoot
  case neg =>
    simp [choose_boot_target, chooseBootTargetAmended, firstNonNormal, h5]
  subst h5
  by_cases h6 : bcbTarget = BootTarget.normalBoot
  case neg =>
    cases hbo : bcbOneshot <;>
      by_cases hf : bcbTarget = BootTarget.fastboot <;>
      simp [choose_boot_target, chooseBootTargetAmended, firstNonNormal,
        h6, hf]
  subst h6
  by_cases h7 : oneShot = BootTarget.dnx
  · subst h7
    by_cases hb : battery = BootTarget.normalBoot <;>
      by_cases hc : chargeMode = BootTarget.normalBoot <;>
      simp [choose_boot_target, chooseBootTargetAmended, firstNonNormal,
        hb, hc]
  by_cases h8 : oneShot = BootTarget.normalBoot
  case neg =>
    simp [choose_boot_target, chooseBootTargetAmended, firstNonNormal,
      h7, h8]
  subst h8
  by_cases hb : battery = BootTarget.normalBoot <;>
    by_cases hc : chargeMode = BootTarget.normalBoot <;>
    simp [choose_boot_target, chooseBootTargetAmended, firstNonNormal,
      hb, hc]

/-- C5 (amended): whenever the wake source is battery-inserted and
off-mode-charging is ENABLED, check_battery_inserted returns PowerOff;
with off-mode-charging disabled it returns NormalBoot for every wake
source. -/
theorem C5_battery_inserted_power_off :
    check_battery_inserted true WakeSource.batteryInserted =
      BootTarget.powerOff ∧
    (∀ w, check_battery_inserted false w = BootTarget.normalBoot) := by
  constructor
  · rfl
  · intro w
    rfl

end Kernelflinger
